import Mathlib

/-!
Shallow embedding of the content-management backend
(`backend/app`: content processing pipeline, theme service, AI service
response handling, extractor routing, rate limiter), together with
theorems settling the specification claims.

Conventions of the embedding:
* Python strings are Lean `String`s; string primitives (`lower`,
  `split`, `find`, slicing, substring tests) are re-implemented over
  `List Char` so that every definition evaluates inside the kernel
  (`str.lower` is modelled on ASCII).
* Python floats (confidence scores, `time.time()` timestamps) are
  modelled by `ℚ`: every literal appearing in the source (0.5, 0.9,
  1.0, …) is exactly representable and only ordered-field operations
  are performed on them.
* External effects (the Anthropic LLM calls, network extraction,
  `json.loads`, `random.choice`) are oracle parameters; fallible calls
  return `Except String` carrying the exception message.
* The SQLAlchemy session is modelled by a `DB` state: `committed` is
  the last committed snapshot and `current` the in-transaction view;
  `add`/`flush`/`update` act on `current`, `commit` copies `current`
  into `committed`, `rollback` restores `current` from `committed`.
-/

/-- ASCII/C0 model of the whitespace class used by Python `str.split()`
(space, tab, newline, carriage return, vertical tab, form feed). -/
def pyIsSpace (c : Char) : Bool :=
  c = ' ' || c = '\t' || c = '\n' || c = '\r' || c = Char.ofNat 11 || c = Char.ofNat 12

/-- ASCII model of Python `str.lower()`. -/
def pyLower (s : String) : String :=
  String.mk (s.data.map Char.toLower)

/-- One step of whitespace grouping (folded from the right): a
whitespace character opens a new (possibly empty) group, any other
character is prepended to the current group. -/
def pyWordsStep (c : Char) (acc : List (List Char)) : List (List Char) :=
  if pyIsSpace c then [] :: acc
  else
    match acc with
    | [] => [[c]]
    | g :: gs => (c :: g) :: gs

/-- Python `s.split()` on a character list: maximal whitespace-free
runs, with empty runs (leading/trailing/repeated whitespace) dropped. -/
def pyWords (l : List Char) : List (List Char) :=
  (l.foldr pyWordsStep []).filter (fun g => !g.isEmpty)

/-- The normalization step of `generate_content_hash`
(`file_handler.py` line 54): lowercased, whitespace-collapsed text,
i.e. Python `' '.join(content.lower().split())`. -/
def normalize_content (content : String) : String :=
  String.mk (List.intercalate [' '] (pyWords (pyLower content).data))

/-- The metadata dict passed to `generate_content_hash`: the keys that
occur at its two call sites (`content_processor.py`). Only `url` and
`title` are ever read by the function itself. -/
structure HashMetadata where
  url : Option String := none
  file : Option String := none
  title : Option String := none
  deriving Repr, DecidableEq

/-- The exact string that `generate_content_hash`
(`file_handler.py` lines 42-63) encodes and feeds to SHA-256:
the normalized content, and, when a metadata dict is given,
`normalized ++ "|" ++ metadata.get('url','') ++ "|" ++ metadata.get('title','')`. -/
def content_hash_input (content : String) (metadata : Option HashMetadata) : String :=
  let normalized := normalize_content content
  match metadata with
  | none => normalized
  | some md => normalized ++ "|" ++ md.url.getD "" ++ "|" ++ md.title.getD ""

/-- The function `generate_content_hash`, parameterized by the SHA-256 hex digest
function `sha256hex` (treated as an oracle; the claims only depend on
which preimage strings are fed to it). -/
def generate_content_hash (sha256hex : String → String)
    (content : String) (metadata : Option HashMetadata) : String :=
  sha256hex (content_hash_input content metadata)

/-- The metadata built at the `process_url` call site
(`content_processor.py` lines 52-55): keys `url` and `title`. -/
def url_hash_metadata (url title : String) : HashMetadata :=
  { url := some url, title := some title }

/-- The metadata built at the `process_file` call site
(`content_processor.py` lines 156-159): keys `file` and `title`. -/
def file_hash_metadata (original_filename title : String) : HashMetadata :=
  { file := some original_filename, title := some title }

/-- C1: the claim says the deduplication hash covers the source URL
(URL submissions) or the file label (file submissions). The code
disagrees for files: `process_file` passes the original filename under
the key `file`, but `generate_content_hash` only reads the keys `url`
and `title`, so the file label never reaches the hash. Evaluated at
the failing input: two file submissions with identical extracted
content and title but different original filenames produce the same
hash input (hence the same SHA-256 hash), while for URL submissions
the URL does reach the hash as claimed. -/
theorem generate_content_hash_ignores_file_label :
    content_hash_input "Body text" (some (file_hash_metadata "a.pdf" "T"))
      = content_hash_input "Body text" (some (file_hash_metadata "b.pdf" "T"))
    ∧ "a.pdf" ≠ "b.pdf"
    ∧ content_hash_input "Body text" (some (url_hash_metadata "http://u1" "T"))
      ≠ content_hash_input "Body text" (some (url_hash_metadata "http://u2" "T")) := by
  refine ⟨rfl, by decide, by decide⟩

/-!
Extractor routing (`app/utils/url_parser.py`, `app/extractors/*.py`,
`app/extractors/factory.py`).
-/

/-- Substring test on character lists, i.e. Python `pat in hay`. -/
def listHasSub (pat : List Char) : List Char → Bool
  | [] => pat.isEmpty
  | c :: cs => pat.isPrefixOf (c :: cs) || listHasSub pat cs

/-- Python `pat in hay` for strings. -/
def strContains (hay pat : String) : Bool :=
  listHasSub pat.data hay.data

/-- Characters allowed in a URL scheme by `urllib.parse` (letters,
digits, plus, minus, dot). -/
def schemeChar (c : Char) : Bool :=
  c.isAlpha || c.isDigit || c = '+' || c = '-' || c = '.'

/-- The network-location portion: characters up to the first of
`/`, `?`, `#`. -/
def netlocTake : List Char → List Char
  | [] => []
  | c :: cs => if c = '/' || c = '?' || c = '#' then [] else c :: netlocTake cs

/-- Python `urllib.parse.urlparse(url).netloc`: strip a well-formed
`scheme:` prefix (first char a letter, all scheme characters before
the colon), then, if the remainder starts with `//`, the netloc runs
to the first `/`, `?` or `#`; otherwise the netloc is empty. -/
def pyUrlNetloc (url : String) : String :=
  let l := url.data
  let rest :=
    match l.findIdx? (fun c => c = ':') with
    | some i =>
        if (i != 0) && (l.take i).all schemeChar && (l.head?.elim false Char.isAlpha)
        then l.drop (i + 1) else l
    | none => l
  match rest with
  | '/' :: '/' :: r => String.mk (netlocTake r)
  | _ => ""

/-- The content-type classification of `detect_content_type`
(`url_parser.py` lines 6-47). The second tuple component (the
extracted tweet/arXiv/DOI identifier) is not modelled: no routing
decision reads it. -/
inductive SourceKind
  | twitter
  | arxiv
  | acm
  | web
  deriving Repr, DecidableEq

/-- The function `detect_content_type(url)` restricted to its first component:
domain-substring dispatch on `urlparse(url.lower()).netloc`. -/
def detect_content_type (url : String) : SourceKind :=
  let domain := pyUrlNetloc (pyLower url)
  if strContains domain "twitter.com" || strContains domain "x.com" then SourceKind.twitter
  else if strContains domain "arxiv.org" then SourceKind.arxiv
  else if strContains domain "dl.acm.org" || strContains domain "acm.org" then SourceKind.acm
  else SourceKind.web

/-- The closed set of extractors registered in `ExtractorFactory`
(`factory.py` lines 22-28), in priority order. -/
inductive ExtractorKind
  | twitter
  | arxiv
  | acm
  | pdf
  | web
  deriving Repr, DecidableEq

/-- The `get_source_type` of each extractor. -/
def extractor_source_type : ExtractorKind → String
  | ExtractorKind.twitter => "twitter"
  | ExtractorKind.arxiv => "arxiv"
  | ExtractorKind.acm => "acm"
  | ExtractorKind.pdf => "pdf"
  | ExtractorKind.web => "web"

/-- The `can_handle(source, is_file)` of each extractor:
the three URL-pattern extractors test `detect_content_type`, the PDF
extractor tests `source.lower().endswith('.pdf')` on file sources, and
the web extractor accepts any `http://` or `https://` URL. -/
def extractor_can_handle (e : ExtractorKind) (source : String) (is_file : Bool) : Bool :=
  match e with
  | ExtractorKind.twitter =>
      !is_file && decide (detect_content_type source = SourceKind.twitter)
  | ExtractorKind.arxiv =>
      !is_file && decide (detect_content_type source = SourceKind.arxiv)
  | ExtractorKind.acm =>
      !is_file && decide (detect_content_type source = SourceKind.acm)
  | ExtractorKind.pdf =>
      is_file && ".pdf".data.isSuffixOf (pyLower source).data
  | ExtractorKind.web =>
      !is_file && ("http://".data.isPrefixOf source.data || "https://".data.isPrefixOf source.data)

/-- The factory's registry order (`factory.py` line 22): specialized
extractors first, web fallback last. -/
def factory_extractors : List ExtractorKind :=
  [ExtractorKind.twitter, ExtractorKind.arxiv, ExtractorKind.acm,
   ExtractorKind.pdf, ExtractorKind.web]

/-- Embeds `ExtractorFactory.get_extractor` (`factory.py` lines 30-53):
first registered extractor whose `can_handle` is true, else a
`ValueError` whose message carries the source truncated to 100
characters. The per-candidate try/except is not modelled: every
embedded `can_handle` is total. -/
def factory_get_extractor (source : String) (is_file : Bool) : Except String ExtractorKind :=
  match factory_extractors.find? (fun e => extractor_can_handle e source is_file) with
  | some e => Except.ok e
  | none => Except.error ("No suitable extractor found for source: " ++ String.mk (source.data.take 100))

/-- C8: the factory checks candidates in the fixed order twitter,
arxiv, acm, pdf, web and returns the first whose `can_handle` holds;
a URL classified as a specialized pattern is routed to that
specialized extractor (never the web fallback), an http(s) URL with no
specialized classification is routed to the web extractor, and a file
source whose lowercased name does not end in `.pdf` matches no
extractor, so routing fails with the no-extractor error carrying the
source truncated to 100 characters. -/
theorem factory_routing_priority :
    (∀ u : String, detect_content_type u = SourceKind.twitter →
        factory_get_extractor u false = Except.ok ExtractorKind.twitter)
    ∧ (∀ u : String, detect_content_type u = SourceKind.arxiv →
        factory_get_extractor u false = Except.ok ExtractorKind.arxiv)
    ∧ (∀ u : String, detect_content_type u = SourceKind.acm →
        factory_get_extractor u false = Except.ok ExtractorKind.acm)
    ∧ (∀ u : String, detect_content_type u = SourceKind.web →
        ("http://".data.isPrefixOf u.data || "https://".data.isPrefixOf u.data) = true →
        factory_get_extractor u false = Except.ok ExtractorKind.web)
    ∧ (∀ p : String, ".pdf".data.isSuffixOf (pyLower p).data = false →
        factory_get_extractor p true =
          Except.error ("No suitable extractor found for source: " ++ String.mk (p.data.take 100))) := by
  refine ⟨?_, ?_, ?_, ?_, ?_⟩
  · intro u hu
    simp [factory_get_extractor, factory_extractors, List.find?, extractor_can_handle, hu]
  · intro u hu
    simp [factory_get_extractor, factory_extractors, List.find?, extractor_can_handle, hu]
  · intro u hu
    simp [factory_get_extractor, factory_extractors, List.find?, extractor_can_handle, hu]
  · intro u hu hweb
    simp [factory_get_extractor, factory_extractors, List.find?, extractor_can_handle, hu, hweb]
  · intro p hp
    simp [factory_get_extractor, factory_extractors, List.find?, extractor_can_handle, hp]

/-- Witness: concrete routing decisions obtained from
`factory_routing_priority` — a twitter URL, an arXiv URL, an ACM URL,
a plain https URL, and a non-PDF file path. -/
theorem factory_routing_priority_witness :
    factory_get_extractor "https://twitter.com/jack/status/20" false
      = Except.ok ExtractorKind.twitter
    ∧ factory_get_extractor "https://arxiv.org/abs/1706.03762" false
      = Except.ok ExtractorKind.arxiv
    ∧ factory_get_extractor "https://dl.acm.org/doi/10.1145/3568" false
      = Except.ok ExtractorKind.acm
    ∧ factory_get_extractor "https://example.org/blog/post" false
      = Except.ok ExtractorKind.web
    ∧ factory_get_extractor "/tmp/upload/notes.txt" true
      = Except.error ("No suitable extractor found for source: "
          ++ String.mk ("/tmp/upload/notes.txt".data.take 100)) :=
  ⟨factory_routing_priority.1 _ (by decide),
   factory_routing_priority.2.1 _ (by decide),
   factory_routing_priority.2.2.1 _ (by decide),
   factory_routing_priority.2.2.2.1 _ (by decide) (by decide),
   factory_routing_priority.2.2.2.2 _ (by decide)⟩

/-!
Rate limiter (`app/utils/rate_limiter.py`). `time.time()` values are
rationals; `asyncio.sleep(d)` is modelled by giving `acquire` both the
entry time `t1` and the time `t2` observed after the conditional
sleep, with theorems assuming `t1 + wait ≤ t2` exactly when the sleep
executes. The per-instance `asyncio.Lock` makes the body atomic, so
one sequential step models one call.
-/

/-- A `RateLimiter` instance: capacity, window seconds, and the FIFO
deque of admission timestamps (front = oldest). -/
structure RateLimiter where
  max_requests : Nat
  time_window : ℚ
  requests : List ℚ
  deriving Repr, DecidableEq

/-- The eviction loop (`rate_limiter.py` lines 36-37 and 46-47):
pop from the front while the front timestamp satisfies
`t <= now - time_window`. -/
def evict_expired (time_window now : ℚ) (reqs : List ℚ) : List ℚ :=
  reqs.dropWhile (fun t => decide (t ≤ now - time_window))

/-- Embeds `RateLimiter.acquire` (`rate_limiter.py` lines 27-50). `t1` is
`time.time()` at entry, `t2` is `time.time()` after the sleep branch.
`none` models the `IndexError` of `self.requests[0]` on an empty
queue, reachable only when `max_requests = 0`. -/
def acquire (rl : RateLimiter) (t1 t2 : ℚ) : Option RateLimiter :=
  let reqs1 := evict_expired rl.time_window t1 rl.requests
  if rl.max_requests ≤ reqs1.length then
    match reqs1 with
    | [] => none
    | r0 :: _ =>
        if 0 < rl.time_window - (t1 - r0) then
          let reqs2 := evict_expired rl.time_window t2 reqs1
          some { rl with requests := reqs2 ++ [t2] }
        else
          some { rl with requests := reqs1 ++ [t1] }
  else
    some { rl with requests := reqs1 ++ [t1] }

/-- Embeds `RateLimiter.can_proceed` (`rate_limiter.py` lines 52-65):
non-blocking check, evicts then compares against capacity. -/
def can_proceed (rl : RateLimiter) (now : ℚ) : Bool :=
  decide ((evict_expired rl.time_window now rl.requests).length < rl.max_requests)

/-- The first element surviving `dropWhile` falsifies the predicate. -/
theorem dropWhile_head_false {α : Type} (p : α → Bool) (l : List α) (r0 : α) (rest : List α)
    (h : l.dropWhile p = r0 :: rest) : p r0 = false := by
  induction l with
  | nil => simp [List.dropWhile] at h
  | cons a l ih =>
      rw [List.dropWhile_cons] at h
      by_cases hp : p a
      · rw [if_pos hp] at h
        exact ih h
      · rw [if_neg hp] at h
        cases h
        simpa using hp

/-- C9: `acquire` never rejects a caller, and when the queue already
holds `N` timestamps none of which has aged out at call time, the
call is delayed by the strictly positive wait
`window - (now - oldest)`, records its admission only after the
re-eviction at the post-sleep time, and by that moment the oldest
prior timestamp has aged out of the window. -/
theorem acquire_delays_never_rejects :
    (∀ (rl : RateLimiter) (t1 t2 : ℚ), 1 ≤ rl.max_requests →
        ∃ rl2, acquire rl t1 t2 = some rl2)
    ∧ (∀ (N : ℕ) (W r0 t1 t2 : ℚ) (rest : List ℚ),
        1 ≤ N →
        (r0 :: rest).length = N →
        (∀ s ∈ r0 :: rest, t1 - W < s) →
        t1 + (W - (t1 - r0)) ≤ t2 →
        acquire ⟨N, W, r0 :: rest⟩ t1 t2
            = some ⟨N, W, evict_expired W t2 (r0 :: rest) ++ [t2]⟩
          ∧ 0 < W - (t1 - r0)
          ∧ r0 + W ≤ t2) := by
  constructor
  · intro rl t1 t2 hmax
    unfold acquire
    cases h : evict_expired rl.time_window t1 rl.requests with
    | nil =>
        have : ¬ (rl.max_requests ≤ ([] : List ℚ).length) := by
          simp only [List.length_nil]
          omega
        simp only [this, if_false]
        exact ⟨_, rfl⟩
    | cons r0 rest =>
        by_cases hfull : rl.max_requests ≤ (r0 :: rest).length
        · simp only [hfull, if_true]
          by_cases hw : 0 < rl.time_window - (t1 - r0)
          · simp only [hw, if_true]
            exact ⟨_, rfl⟩
          · simp only [hw, if_false]
            exact ⟨_, rfl⟩
        · simp only [hfull, if_false]
          exact ⟨_, rfl⟩
  · intro N W r0 t1 t2 rest hN hlen hfresh hsleep
    have hfr : t1 - W < r0 := hfresh r0 (List.mem_cons_self r0 rest)
    have hwait : 0 < W - (t1 - r0) := by linarith
    have haged : r0 + W ≤ t2 := by linarith
    have hev1 : evict_expired W t1 (r0 :: rest) = r0 :: rest := by
      unfold evict_expired
      rw [List.dropWhile_cons, if_neg]
      simp only [decide_eq_true_eq]
      intro hc
      linarith
    refine ⟨?_, hwait, haged⟩
    unfold acquire
    simp only [hev1, hlen, le_refl, if_true, hwait]

/-- Dropping a prefix never lengthens a list. -/
theorem dropWhile_length_le {α : Type} (p : α → Bool) (l : List α) :
    (l.dropWhile p).length ≤ l.length := by
  induction l with
  | nil => simp [List.dropWhile]
  | cons a l ih =>
      rw [List.dropWhile_cons]
      by_cases hp : p a
      · rw [if_pos hp]
        exact Nat.le_trans ih (Nat.le_succ _)
      · rw [if_neg hp]

/-- Witness: a limiter with spare capacity admits immediately; a full
limiter (capacity 1, window 10, one admission at time 0, call at
time 5) waits 5 seconds and admits at time 10, after the prior
admission aged out. -/
theorem acquire_delays_never_rejects_witness :
    (∃ rl2, acquire ⟨3, 60, [1, 2]⟩ 2 2 = some rl2)
    ∧ (acquire ⟨1, 10, [0]⟩ 5 10 = some ⟨1, 10, evict_expired 10 10 [0] ++ [10]⟩
        ∧ (0:ℚ) < 10 - (5 - 0)
        ∧ (0:ℚ) + 10 ≤ 10) :=
  ⟨acquire_delays_never_rejects.1 ⟨3, 60, [1, 2]⟩ 2 2 (by decide),
   acquire_delays_never_rejects.2 1 10 0 5 10 [] (by decide) (by decide)
     (by
       intro s hs
       rw [List.mem_singleton] at hs
       subst hs
       norm_num)
     (by norm_num)⟩

/-- C10: for a limiter of capacity at least one, `acquire` preserves
the invariant that the queue holds at most `max_requests` timestamps:
whenever the post-eviction queue is full the computed wait is strictly
positive, and after sleeping that long the oldest timestamp is evicted
before the new admission is appended, so every admission is appended
to a queue holding fewer than `max_requests` prior timestamps. -/
theorem acquire_preserves_capacity (rl : RateLimiter) (t1 t2 : ℚ)
    (hmax : 1 ≤ rl.max_requests)
    (hinv : rl.requests.length ≤ rl.max_requests)
    (hsleep : ∀ r0 rest, evict_expired rl.time_window t1 rl.requests = r0 :: rest →
        t1 + (rl.time_window - (t1 - r0)) ≤ t2) :
    ∃ rl2, acquire rl t1 t2 = some rl2
      ∧ rl2.requests.length ≤ rl.max_requests
      ∧ (∃ pre tadm, rl2.requests = pre ++ [tadm] ∧ pre.length < rl.max_requests)
      ∧ (∀ r0 rest, evict_expired rl.time_window t1 rl.requests = r0 :: rest →
          rl.max_requests ≤ (r0 :: rest).length →
          0 < rl.time_window - (t1 - r0)) := by
  have hpos : ∀ r0 rest, evict_expired rl.time_window t1 rl.requests = r0 :: rest →
      rl.max_requests ≤ (r0 :: rest).length →
      0 < rl.time_window - (t1 - r0) := by
    intro r0 rest hev _
    have hf := dropWhile_head_false _ _ _ _ hev
    have hf2 : ¬ (r0 ≤ t1 - rl.time_window) := by simpa using hf
    linarith [lt_of_not_le hf2]
  have hlen1 : (evict_expired rl.time_window t1 rl.requests).length ≤ rl.requests.length :=
    dropWhile_length_le _ _
  cases hc : evict_expired rl.time_window t1 rl.requests with
  | nil =>
      have hne : ¬ (rl.max_requests ≤ ([] : List ℚ).length) := by
        simp only [List.length_nil]
        omega
      refine ⟨{ rl with requests := [t1] }, ?_, by simpa using hmax,
        ⟨[], t1, by simp, by simpa using hmax⟩, ?_⟩
      · simp only [acquire, hc, hne, if_false, List.nil_append]
      · intro r0 rest habs
        exact absurd habs (by simp)
  | cons r0 rest =>
      rw [hc] at hlen1
      have hpos2 : ∀ a b, (r0 :: rest : List ℚ) = a :: b →
          rl.max_requests ≤ (a :: b).length → 0 < rl.time_window - (t1 - a) := by
        intro a b hab hfull2
        cases hab
        exact hpos r0 rest hc hfull2
      by_cases hfull : rl.max_requests ≤ (r0 :: rest).length
      · have hw : 0 < rl.time_window - (t1 - r0) := hpos r0 rest hc hfull
        have haged : r0 ≤ t2 - rl.time_window := by
          have := hsleep r0 rest hc
          linarith
        have hev2 : evict_expired rl.time_window t2 (r0 :: rest)
            = evict_expired rl.time_window t2 rest := by
          unfold evict_expired
          rw [List.dropWhile_cons, if_pos]
          simpa using haged
        have hlen2 : (evict_expired rl.time_window t2 rest).length ≤ rest.length :=
          dropWhile_length_le _ _
        refine ⟨{ rl with requests := evict_expired rl.time_window t2 (r0 :: rest) ++ [t2] },
          ?_, ?_, ⟨evict_expired rl.time_window t2 (r0 :: rest), t2, rfl, ?_⟩, hpos2⟩
        · simp only [acquire, hc, hfull, if_true, hw]
        · simp only [List.length_append, List.length_singleton, hev2]
          simp only [List.length_cons] at hlen1
          omega
        · simp only [hev2]
          simp only [List.length_cons] at hlen1
          omega
      · refine ⟨{ rl with requests := (r0 :: rest) ++ [t1] }, ?_, ?_,
          ⟨r0 :: rest, t1, rfl, by omega⟩, hpos2⟩
        · simp only [acquire, hc, hfull, if_false]
        · simp only [List.length_append, List.length_singleton]
          omega

/-- Witness: capacity 2, window 10, queue `[0, 5]`, call at time 6
(queue full, nothing expired), resume at time 10: the call succeeds
and the queue again holds at most 2 timestamps, the admission landing
on a queue holding fewer than 2. -/
theorem acquire_preserves_capacity_witness :
    ∃ rl2, acquire ⟨2, 10, [0, 5]⟩ 6 10 = some rl2
      ∧ rl2.requests.length ≤ 2
      ∧ (∃ pre tadm, rl2.requests = pre ++ [tadm] ∧ pre.length < 2)
      ∧ (∀ r0 rest, evict_expired 10 6 [0, 5] = r0 :: rest →
          2 ≤ (r0 :: rest).length →
          0 < 10 - (6 - r0)) :=
  acquire_preserves_capacity ⟨2, 10, [0, 5]⟩ 6 10 (by decide) (by decide)
    (by
      intro r0 rest hev
      have hev2 : evict_expired 10 6 [0, 5] = [(0:ℚ), 5] := by
        norm_num [evict_expired, List.dropWhile]
      rw [hev2] at hev
      injection hev with h1 _
      rw [← h1]
      norm_num)

/-!
AI service (`app/services/ai_service.py`): fenced-JSON extraction and
the comprehensive-summary parse/degrade logic of `generate_summary`.
The Anthropic API call is an oracle value (`LLMResponse`), and
`json.loads` is an oracle `String → Option ParsedSummary` (`none`
models `json.JSONDecodeError`).
-/

/-- Index of the first occurrence of `pat` in `l`, if any. -/
def subFindAux (pat : List Char) : List Char → Option Nat
  | [] => if pat.isEmpty then some 0 else none
  | c :: cs =>
      if pat.isPrefixOf (c :: cs) then some 0
      else (subFindAux pat cs).map (fun i => i + 1)

/-- Python `s.find(pat, start)`: first index at or after `start`, or
`-1` when absent. -/
def pyFind (s pat : String) (start : Nat) : Int :=
  match subFindAux pat.data (s.data.drop start) with
  | some i => Int.ofNat (start + i)
  | none => -1

/-- Python `s[start:stop]` for a non-negative `start` and a possibly
negative `stop` (a negative `stop` counts from the end, as in the
`json_end = -1` case when no closing fence exists). -/
def pySlice (s : String) (start : Nat) (stop : Int) : String :=
  let n := s.data.length
  let e : Nat := if stop < 0 then (Int.ofNat n + stop).toNat else min stop.toNat n
  String.mk ((s.data.drop start).take (e - start))

/-- Python `s.strip()` (ASCII whitespace model). -/
def pyStrip (s : String) : String :=
  String.mk (((s.data.dropWhile pyIsSpace).reverse.dropWhile pyIsSpace).reverse)

/-- The fenced-code-block extraction performed before `json.loads`
(`ai_service.py` lines 92-99, repeated at lines 188-195 and 254-261):
prefer a fence tagged `json`, else any fence; take the text up to the
next fence (Python slicing to `-1` when no closing fence exists) and
strip it; without any fence the text is returned untouched. -/
def extract_json_block (response_text : String) : String :=
  if strContains response_text "```json" then
    let json_start := (pyFind response_text "```json" 0 + 7).toNat
    let json_end := pyFind response_text "```" json_start
    pyStrip (pySlice response_text json_start json_end)
  else if strContains response_text "```" then
    let json_start := (pyFind response_text "```" 0 + 3).toNat
    let json_end := pyFind response_text "```" json_start
    pyStrip (pySlice response_text json_start json_end)
  else response_text

/-- The model identifier fixed in `AIService.__init__`. -/
def MODEL_ID : String := "claude-sonnet-4-5-20250929"

/-- The Anthropic response as consumed by the service: the first
content block text and `usage.output_tokens`. -/
structure LLMResponse where
  text : String
  output_tokens : Nat
  deriving Repr, DecidableEq

/-- The fields of a parsed summary JSON object that the service
reads; `none` models an absent key. -/
structure ParsedSummary where
  overview : Option String := none
  key_insights : Option (List String) := none
  implications : Option String := none
  suggested_themes : Option (List String) := none
  deriving Repr, DecidableEq

/-- The summary dict returned by `generate_summary` and consumed by
the content processor and theme service (absent keys read through
`dict.get` defaults). -/
structure SummaryData where
  overview : String
  key_insights : List String := []
  implications : Option String := none
  suggested_themes : List String := []
  token_count : Option Nat := none
  model_version : Option String := none
  deriving Repr, DecidableEq

/-- Embeds `AIService.generate_summary` (`ai_service.py` lines 34-142) after
a successful API call: for the comprehensive type, extract a fenced
JSON block and parse it; a parse success missing `overview` or
`key_insights` raises `ValueError`, which the outer handler re-raises
wrapped (the Python messages quote the key names; the quotes are
dropped here); a `json.JSONDecodeError` degrades to the synthetic
summary built from the (fence-extracted) response text. Both paths
attach `token_count` and `model_version`. The brief type returns the
raw text with empty insights and themes. -/
def generate_summary (jsonParse : String → Option ParsedSummary)
    (summary_type : String) (resp : LLMResponse) : Except String SummaryData :=
  if summary_type = "comprehensive" then
    let response_text := extract_json_block resp.text
    match jsonParse response_text with
    | some ps =>
        if ps.overview.isNone then
          Except.error "Failed to generate summary: Missing overview in summary"
        else if ps.key_insights.isNone then
          Except.error "Failed to generate summary: Missing key_insights in summary"
        else
          Except.ok { overview := ps.overview.getD "",
                      key_insights := ps.key_insights.getD [],
                      implications := ps.implications,
                      suggested_themes := ps.suggested_themes.getD [],
                      token_count := some resp.output_tokens,
                      model_version := some MODEL_ID }
    | none =>
        Except.ok { overview := response_text,
                    key_insights := ["Summary generation partially failed - see overview"],
                    implications := none,
                    suggested_themes := [],
                    token_count := some resp.output_tokens,
                    model_version := some MODEL_ID }
  else
    Except.ok { overview := resp.text,
                key_insights := [],
                implications := none,
                suggested_themes := [],
                token_count := some resp.output_tokens,
                model_version := some MODEL_ID }

/-- Substring occurrence is monotone in prefixes of the pattern. -/
theorem listHasSub_of_append (p q l : List Char)
    (h : listHasSub (p ++ q) l = true) : listHasSub p l = true := by
  induction l with
  | nil =>
      simp only [listHasSub, List.isEmpty_iff, List.append_eq_nil] at h ⊢
      exact h.1
  | cons c cs ih =>
      simp only [listHasSub, Bool.or_eq_true] at h ⊢
      rcases h with h | h
      · left
        rw [List.isPrefixOf_iff_prefix] at h ⊢
        exact List.IsPrefix.trans ⟨q, rfl⟩ h
      · right
        exact ih h

/-- C4 counterexample: a comprehensive response wrapped in an untagged
code fence whose body is not JSON. `json.loads` fails, the call
degrades without raising, but the degraded `overview` is the
fence-extracted text, not the raw response text the claim requires. -/
theorem generate_summary_overview_not_raw :
    generate_summary (fun _ => none) "comprehensive"
        { text := "```\nnot json\n```", output_tokens := 42 }
      = Except.ok { overview := "not json",
                    key_insights := ["Summary generation partially failed - see overview"],
                    implications := none,
                    suggested_themes := [],
                    token_count := some 42,
                    model_version := some MODEL_ID }
    ∧ "not json" ≠ "```\nnot json\n```" := by
  exact ⟨rfl, by decide⟩

/-- C4 amended: on a comprehensive call whose response fails JSON
parsing, `generate_summary` does not raise and returns the degraded
summary whose `overview` is the fence-extracted response text (equal
to the raw response text whenever the response contains no ``` fence),
whose `key_insights` is the single sentinel string, `implications`
null, `suggested_themes` empty; and every summary the function
returns, degraded or parsed, carries `token_count` from the usage
accounting and `model_version` equal to the fixed model identifier. -/
theorem generate_summary_degraded_shape (jsonParse : String → Option ParsedSummary)
    (resp : LLMResponse) :
    (jsonParse (extract_json_block resp.text) = none →
      generate_summary jsonParse "comprehensive" resp
        = Except.ok { overview := extract_json_block resp.text,
                      key_insights := ["Summary generation partially failed - see overview"],
                      implications := none,
                      suggested_themes := [],
                      token_count := some resp.output_tokens,
                      model_version := some MODEL_ID })
    ∧ (strContains resp.text "```" = false → extract_json_block resp.text = resp.text)
    ∧ (∀ sd, generate_summary jsonParse "comprehensive" resp = Except.ok sd →
        sd.token_count = some resp.output_tokens ∧ sd.model_version = some MODEL_ID) := by
  refine ⟨?_, ?_, ?_⟩
  · intro hparse
    unfold generate_summary
    rw [if_pos rfl]
    dsimp only
    rw [hparse]
  · intro hnf
    have hnj : strContains resp.text "```json" = false := by
      cases hj : strContains resp.text "```json"
      · rfl
      · exfalso
        have : listHasSub ("```".data ++ "json".data) resp.text.data = true := hj
        have := listHasSub_of_append "```".data "json".data resp.text.data this
        rw [strContains, this] at hnf
        exact Bool.noConfusion hnf
    simp only [extract_json_block, hnj, hnf, Bool.false_eq_true, if_false]
  · intro sd hsd
    unfold generate_summary at hsd
    rw [if_pos rfl] at hsd
    dsimp only at hsd
    cases hp : jsonParse (extract_json_block resp.text) with
    | some ps =>
        rw [hp] at hsd
        dsimp only at hsd
        by_cases ho : ps.overview.isNone
        · rw [if_pos ho] at hsd
          exact Except.noConfusion hsd
        · rw [if_neg ho] at hsd
          by_cases hk : ps.key_insights.isNone
          · rw [if_pos hk] at hsd
            exact Except.noConfusion hsd
          · rw [if_neg hk] at hsd
            cases hsd
            exact ⟨rfl, rfl⟩
    | none =>
        rw [hp] at hsd
        dsimp only at hsd
        cases hsd
        exact ⟨rfl, rfl⟩

/-- Witness: a fence-free unparseable response degrades with the raw
text as overview, via `generate_summary_degraded_shape`. -/
theorem generate_summary_degraded_shape_witness :
    generate_summary (fun _ => none) "comprehensive"
        { text := "plain prose", output_tokens := 7 }
      = Except.ok { overview := "plain prose",
                    key_insights := ["Summary generation partially failed - see overview"],
                    implications := none,
                    suggested_themes := [],
                    token_count := some 7,
                    model_version := some MODEL_ID } := by
  have h := generate_summary_degraded_shape (fun _ => none)
    { text := "plain prose", output_tokens := 7 }
  have h2 := h.1 rfl
  have h3 := h.2.1 (by decide)
  rw [h2, h3]

/-!
Relational store model (`app/models/*.py`) and theme service
(`app/services/theme_service.py`).
-/

/-- A `contents` row. `extraction_metadata` (an opaque JSON payload
never read by the pipeline) is not modelled; DB-generated timestamps
are optional strings. -/
structure ContentRow where
  id : Nat
  source_type : String
  source_url : Option String := none
  file_path : Option String := none
  title : String
  author : Option String := none
  publish_date : Option String := none
  raw_content : String
  content_hash : String
  created_at : Option String := none
  deriving Repr, DecidableEq

/-- A `summaries` row (fields written by the pipeline). -/
structure SummaryRow where
  content_id : Nat
  overview : String
  key_insights : List String
  implications : Option String := none
  model_version : Option String := none
  token_count : Option Nat := none
  deriving Repr, DecidableEq

/-- A `themes` row. -/
structure ThemeRow where
  id : Nat
  name : String
  description : Option String := none
  color : String
  content_count : Nat
  deriving Repr, DecidableEq

/-- A `content_themes` association row. -/
structure ContentThemeRow where
  content_id : Nat
  theme_id : Nat
  confidence : ℚ
  deriving Repr, DecidableEq

/-- The table state visible to a session, plus the autoincrement
counters for the two primary keys the code reads back after `flush`. -/
structure Store where
  contents : List ContentRow := []
  summaries : List SummaryRow := []
  themes : List ThemeRow := []
  contentThemes : List ContentThemeRow := []
  nextContentId : Nat := 1
  nextThemeId : Nat := 1
  deriving Repr, DecidableEq

/-- A SQLAlchemy `AsyncSession` over the store: the last committed
snapshot and the in-transaction view that queries and flushes see. -/
structure DB where
  committed : Store
  current : Store
  deriving Repr, DecidableEq

/-- Session `db.commit()`: the transaction view becomes durable. -/
def DB.commit (db : DB) : DB := ⟨db.current, db.current⟩

/-- Session `db.rollback()`: the transaction view is reset to the last
committed snapshot. -/
def DB.rollback (db : DB) : DB := ⟨db.committed, db.committed⟩

/-- The constant `ThemeService.CONFIDENCE_LOW` (minimum threshold). -/
def CONFIDENCE_LOW : ℚ := 0.5

/-- The constant `ThemeService.CONFIDENCE_HIGH` (documented auto-assign signal;
never gates behavior in the current flow). -/
def CONFIDENCE_HIGH : ℚ := 0.75

/-- The constant `ThemeService.BOOTSTRAP_COUNT`. -/
def BOOTSTRAP_COUNT : Nat := 10

/-- The fixed palette `THEME_COLORS` (`theme_service.py` lines 18-22). -/
def THEME_COLORS : List String :=
  ["#FF5733", "#33FF57", "#3357FF", "#F333FF", "#FF33F3",
   "#33FFF3", "#F3FF33", "#FF8C33", "#8C33FF", "#33FF8C",
   "#FF3383", "#33FFA5", "#A533FF", "#FFA533", "#5733FF"]

/-- The theme projection sent to the categorization prompt
(`theme_service.py` lines 96-103). -/
structure ThemeData where
  id : Nat
  name : String
  description : Option String
  deriving Repr, DecidableEq

/-- One entry of the parsed `theme_matches` array. `theme_id = none`
models an absent key; `confidence` defaults to 0 as in
`match.get('confidence', 0)`. -/
structure ThemeMatch where
  theme_id : Option Nat := none
  confidence : ℚ := 0
  deriving Repr, DecidableEq

/-- The parsed `new_theme_suggestion` object (its `name` access is a
hard key lookup in the source; a missing name would be swallowed by
the service's catch-all like any other error). -/
structure NewThemeSuggestion where
  name : String
  description : Option String := none
  deriving Repr, DecidableEq

/-- The parsed categorization response. -/
structure Categorization where
  theme_matches : List ThemeMatch := []
  new_theme_suggestion : Option NewThemeSuggestion := none
  deriving Repr, DecidableEq

/-- The summary projection sent to the bootstrap prompt
(`theme_service.py` lines 210-217). -/
structure BootSummary where
  overview : String
  key_insights : List String
  implications : Option String
  deriving Repr, DecidableEq

/-- Oracles for the theme service: the two `ai_service` calls
(`Except.error` models a raised exception) and `random.choice` over
the palette, indexed by the id the created theme will receive. -/
structure ThemeOracles where
  categorize : SummaryData → List ThemeData → Except String Categorization
  bootstrap : List BootSummary → Except String (List NewThemeSuggestion)
  pickColor : Nat → String

/-- Embeds `ThemeService._create_theme` (`theme_service.py` lines 157-188):
insert a theme with a palette color and `content_count = 1`; `flush`
materializes the autoincrement id. -/
def create_theme (pickColor : Nat → String) (name : String)
    (description : Option String) (s : Store) : ThemeRow × Store :=
  let id := s.nextThemeId
  let theme : ThemeRow :=
    { id := id, name := name, description := description,
      color := pickColor id, content_count := 1 }
  (theme, { s with themes := s.themes ++ [theme], nextThemeId := id + 1 })

/-- Projection of a summary row for the bootstrap prompt. -/
def bootSummaryOf (r : SummaryRow) : BootSummary :=
  ⟨r.overview, r.key_insights, r.implications⟩

/-- The most recent 20 summaries (`order_by generated_at desc`,
insertion order standing in for `generated_at`). -/
def recent_summaries (s : Store) : List SummaryRow :=
  s.summaries.reverse.take 20

/-- Embeds `ThemeService._bootstrap_themes` (`theme_service.py` lines
190-235): fetch recent summaries, ask the bootstrap oracle for theme
proposals, create each; any raised error is swallowed, leaving the
store as it was at the failure point (the only fallible step, the
oracle call, precedes all writes). -/
def bootstrap_themes (orc : ThemeOracles) (s : Store) : Store :=
  let summaries := recent_summaries s
  if summaries.isEmpty then s
  else
    match orc.bootstrap (summaries.map bootSummaryOf) with
    | Except.error _ => s
    | Except.ok themes =>
        themes.foldl (fun acc td => (create_theme orc.pickColor td.name td.description acc).2) s

/-- The bootstrap trigger of `categorize_content` (`theme_service.py`
lines 59-73): fewer than 5 themes and at least `BOOTSTRAP_COUNT`
association rows. -/
def bootstrap_phase (orc : ThemeOracles) (s : Store) : Store :=
  if s.themes.length < 5 then
    if BOOTSTRAP_COUNT ≤ s.contentThemes.length then bootstrap_themes orc s else s
  else s

/-- The acceptance test of `theme_service.py` line 112:
`confidence >= CONFIDENCE_LOW and theme_id` (Python truthiness: the
id key present and nonzero). -/
def acceptMatch (m : ThemeMatch) : Bool :=
  decide (CONFIDENCE_LOW ≤ m.confidence) &&
    (match m.theme_id with
     | none => false
     | some t => decide (t ≠ 0))

/-- The accepted id of a match (`match.get('theme_id')`, only read
when truthy). -/
def matchTid (m : ThemeMatch) : Nat := m.theme_id.getD 0

/-- The `UPDATE themes SET content_count = content_count + 1 WHERE id
= tid` statement (`theme_service.py` lines 123-127). -/
def bump_theme_count (themes : List ThemeRow) (tid : Nat) : List ThemeRow :=
  themes.map (fun t =>
    if t.id = tid then { t with content_count := t.content_count + 1 } else t)

/-- One iteration of the match loop (`theme_service.py` lines
108-127): on acceptance, add the association, record the id, and bump
the theme counter. -/
def applyMatch (content_id : Nat) (p : List Nat × Store) (m : ThemeMatch) : List Nat × Store :=
  if acceptMatch m then
    (p.1 ++ [matchTid m],
     { p.2 with
       contentThemes := p.2.contentThemes ++ [⟨content_id, matchTid m, m.confidence⟩],
       themes := bump_theme_count p.2.themes (matchTid m) })
  else p

/-- One iteration of the cold-start loop (`theme_service.py` lines
80-90): create a theme from the suggested name (no description) and
associate it with full confidence. -/
def coldStartStep (orc : ThemeOracles) (content_id : Nat)
    (p : List Nat × Store) (name : String) : List Nat × Store :=
  let ts := create_theme orc.pickColor name none p.2
  (p.1 ++ [ts.1.id],
   { ts.2 with contentThemes := ts.2.contentThemes ++ [⟨content_id, ts.1.id, 1.0⟩] })

/-- The theme list payload for the categorization prompt. -/
def themesPayload (themes : List ThemeRow) : List ThemeData :=
  themes.map (fun t => ⟨t.id, t.name, t.description⟩)

/-- Embeds `ThemeService.categorize_content` (`theme_service.py` lines
34-155): bootstrap check, cold-start creation from the summary's own
suggested themes, or oracle categorization with confidence gating and
the suppressed new-theme suggestion; the surrounding try/except turns
any raised error into an empty assignment list without undoing writes
already made (only the oracle call can raise in this model; session
operations are infallible state updates). -/
def categorize_content (orc : ThemeOracles) (content_id : Nat)
    (summary : SummaryData) (s : Store) : List Nat × Store :=
  let s1 := bootstrap_phase orc s
  if s1.themes.isEmpty then
    (summary.suggested_themes.take 3).foldl (coldStartStep orc content_id) ([], s1)
  else
    match orc.categorize summary (themesPayload s1.themes) with
    | Except.error _ => ([], s1)
    | Except.ok cat =>
        let p := cat.theme_matches.foldl (applyMatch content_id) ([], s1)
        match cat.new_theme_suggestion with
        | some sugg =>
            if p.1.isEmpty then
              let ts := create_theme orc.pickColor sugg.name sugg.description p.2
              (p.1 ++ [ts.1.id],
               { ts.2 with contentThemes := ts.2.contentThemes ++ [⟨content_id, ts.1.id, 0.9⟩] })
            else p
        | none => p

/-- C5: the theme service's catch-alls. A raised error inside the
categorization flow (the only fallible step of the model is the LLM
oracle; session operations are infallible state updates) yields an
empty assignment list instead of propagating, and a raised error
inside `_bootstrap_themes` leaves the store unchanged instead of
propagating — so neither can abort content ingestion. -/
theorem categorize_content_swallows_errors :
    (∀ (orc : ThemeOracles) (content_id : Nat) (summary : SummaryData) (s : Store) (msg : String),
        (bootstrap_phase orc s).themes.isEmpty = false →
        orc.categorize summary (themesPayload (bootstrap_phase orc s).themes) = Except.error msg →
        categorize_content orc content_id summary s = ([], bootstrap_phase orc s))
    ∧ (∀ (orc : ThemeOracles) (s : Store) (msg : String),
        orc.bootstrap ((recent_summaries s).map bootSummaryOf) = Except.error msg →
        bootstrap_themes orc s = s) := by
  constructor
  · intro orc cid summary s msg hne hcat
    unfold categorize_content
    dsimp only
    rw [hne]
    simp only [Bool.false_eq_true, if_false]
    rw [hcat]
  · intro orc s msg hboot
    unfold bootstrap_themes
    dsimp only
    by_cases hs : (recent_summaries s).isEmpty
    · rw [if_pos hs]
    · rw [if_neg hs, hboot]

/-- Oracles whose LLM calls always raise, for concrete instantiation. -/
def failingOracles : ThemeOracles :=
  { categorize := fun _ _ => Except.error "API connection error",
    bootstrap := fun _ => Except.error "API connection error",
    pickColor := fun _ => "#FF5733" }

/-- A store with one theme, one summary and no associations. -/
def oneThemeStore : Store :=
  { themes := [{ id := 1, name := "AI", description := none,
                 color := "#33FF57", content_count := 2 }],
    summaries := [{ content_id := 1, overview := "o", key_insights := ["k"] }],
    nextContentId := 2, nextThemeId := 2 }

/-- Witness: with one existing theme and a failing LLM, categorization
returns no assignments and bootstrap leaves the store unchanged. -/
theorem categorize_content_swallows_errors_witness :
    categorize_content failingOracles 7 { overview := "o" } oneThemeStore
      = ([], bootstrap_phase failingOracles oneThemeStore)
    ∧ bootstrap_themes failingOracles oneThemeStore = oneThemeStore :=
  ⟨categorize_content_swallows_errors.1 failingOracles 7 { overview := "o" }
      oneThemeStore "API connection error" rfl rfl,
   categorize_content_swallows_errors.2 failingOracles oneThemeStore
      "API connection error" rfl⟩

/-- The theme rows created by the cold-start loop, given the first
autoincrement id. -/
def cold_rows (pick : Nat → String) (firstId : Nat) : List String → List ThemeRow
  | [] => []
  | n :: ns => { id := firstId, name := n, description := none,
                 color := pick firstId, content_count := 1 } :: cold_rows pick (firstId + 1) ns

/-- The association rows created by the cold-start loop. -/
def cold_assocs (cid firstId : Nat) : List String → List ContentThemeRow
  | [] => []
  | _ :: ns => ⟨cid, firstId, 1.0⟩ :: cold_assocs cid (firstId + 1) ns

/-- Closed form of the cold-start fold. -/
theorem foldl_coldStartStep (orc : ThemeOracles) (cid : Nat) (names : List String)
    (acc : List Nat) (s : Store) :
    names.foldl (coldStartStep orc cid) (acc, s)
      = (acc ++ List.range' s.nextThemeId names.length 1,
         { s with
           themes := s.themes ++ cold_rows orc.pickColor s.nextThemeId names,
           contentThemes := s.contentThemes ++ cold_assocs cid s.nextThemeId names,
           nextThemeId := s.nextThemeId + names.length }) := by
  induction names generalizing acc s with
  | nil => simp [cold_rows, cold_assocs, List.range']
  | cons n ns ih =>
      rw [List.foldl_cons]
      have hstep : coldStartStep orc cid (acc, s) n
          = (acc ++ [s.nextThemeId],
             { s with
               themes := s.themes ++ [{ id := s.nextThemeId, name := n, description := none,
                                        color := orc.pickColor s.nextThemeId, content_count := 1 }],
               contentThemes := s.contentThemes ++ [⟨cid, s.nextThemeId, 1.0⟩],
               nextThemeId := s.nextThemeId + 1 }) := rfl
      rw [hstep, ih]
      simp only [cold_rows, cold_assocs, List.range', List.append_assoc,
        List.singleton_append, List.length_cons]
      have harith : s.nextThemeId + 1 + ns.length = s.nextThemeId + (ns.length + 1) := by
        omega
      rw [harith]

/-- Every cold-start row has no description. -/
theorem cold_rows_description (pick : Nat → String) (firstId : Nat) (names : List String) :
    ∀ row ∈ cold_rows pick firstId names, row.description = none := by
  induction names generalizing firstId with
  | nil => intro row h; simp [cold_rows] at h
  | cons n ns ih =>
      intro row h
      rw [cold_rows, List.mem_cons] at h
      rcases h with h | h
      · rw [h]
      · exact ih (firstId + 1) row h

/-- Cold-start rows carry exactly the suggested names, in order. -/
theorem cold_rows_names (pick : Nat → String) (firstId : Nat) (names : List String) :
    (cold_rows pick firstId names).map (fun t => t.name) = names := by
  induction names generalizing firstId with
  | nil => rfl
  | cons n ns ih => simp [cold_rows, ih]

/-- Cold-start row ids are the consecutive autoincrement ids. -/
theorem cold_rows_ids (pick : Nat → String) (firstId : Nat) (names : List String) :
    (cold_rows pick firstId names).map (fun t => t.id)
      = List.range' firstId names.length 1 := by
  induction names generalizing firstId with
  | nil => rfl
  | cons n ns ih => simp [cold_rows, List.range', ih]

/-- Each cold-start association pairs the content with one created
row's id at confidence exactly 1. -/
theorem cold_assocs_eq_map (pick : Nat → String) (cid firstId : Nat) (names : List String) :
    cold_assocs cid firstId names
      = (cold_rows pick firstId names).map (fun t => ⟨cid, t.id, 1.0⟩) := by
  induction names generalizing firstId with
  | nil => rfl
  | cons n ns ih => simp [cold_rows, cold_assocs, ih]

/-- C7: with zero themes in the corpus (and too few associations to
trigger bootstrap, the only state in which an association-free,
theme-free corpus can occur), `categorize_content` creates one theme
per suggested name from the content's own summary, at most the first
3 in order, each with no description, each associated to the content
with confidence exactly 1.0, and returns the ids of the created
themes. -/
theorem categorize_content_cold_start (orc : ThemeOracles) (cid : Nat)
    (summary : SummaryData) (s : Store)
    (hthemes : s.themes = [])
    (hassoc : s.contentThemes.length < BOOTSTRAP_COUNT) :
    categorize_content orc cid summary s
      = (List.range' s.nextThemeId (summary.suggested_themes.take 3).length 1,
         { s with
           themes := cold_rows orc.pickColor s.nextThemeId (summary.suggested_themes.take 3),
           contentThemes := s.contentThemes
             ++ cold_assocs cid s.nextThemeId (summary.suggested_themes.take 3),
           nextThemeId := s.nextThemeId + (summary.suggested_themes.take 3).length })
    ∧ (∀ row ∈ cold_rows orc.pickColor s.nextThemeId (summary.suggested_themes.take 3),
        row.description = none)
    ∧ (cold_rows orc.pickColor s.nextThemeId (summary.suggested_themes.take 3)).map
        (fun t => t.name) = summary.suggested_themes.take 3
    ∧ (cold_rows orc.pickColor s.nextThemeId (summary.suggested_themes.take 3)).map
        (fun t => t.id) = List.range' s.nextThemeId (summary.suggested_themes.take 3).length 1
    ∧ cold_assocs cid s.nextThemeId (summary.suggested_themes.take 3)
        = (cold_rows orc.pickColor s.nextThemeId (summary.suggested_themes.take 3)).map
            (fun t => ⟨cid, t.id, 1.0⟩) := by
  refine ⟨?_, cold_rows_description _ _ _, cold_rows_names _ _ _,
    cold_rows_ids _ _ _, cold_assocs_eq_map _ _ _ _⟩
  have hphase : bootstrap_phase orc s = s := by
    unfold bootstrap_phase
    have h1 : s.themes.length < 5 := by
      rw [hthemes]
      simp
    have h2 : ¬ (BOOTSTRAP_COUNT ≤ s.contentThemes.length) := by
      omega
    rw [if_pos h1, if_neg h2]
  unfold categorize_content
  dsimp only
  rw [hphase, hthemes]
  simp only [List.isEmpty_nil, if_true]
  rw [foldl_coldStartStep]
  rw [hthemes]
  simp

/-- Witness: an empty corpus and a summary suggesting four themes
yields exactly the first three, ids 1-3, confidence 1.0 each (the
LLM oracles are never consulted: even always-failing ones work). -/
theorem categorize_content_cold_start_witness :
    categorize_content failingOracles 7
        { overview := "o", suggested_themes := ["A", "B", "C", "D"] } {}
      = ([1, 2, 3],
         { contents := [], summaries := [],
           themes := [⟨1, "A", none, "#FF5733", 1⟩, ⟨2, "B", none, "#FF5733", 1⟩,
                      ⟨3, "C", none, "#FF5733", 1⟩],
           contentThemes := [⟨7, 1, 1.0⟩, ⟨7, 2, 1.0⟩, ⟨7, 3, 1.0⟩],
           nextContentId := 1, nextThemeId := 4 }) := by
  have h := (categorize_content_cold_start failingOracles 7
    { overview := "o", suggested_themes := ["A", "B", "C", "D"] } {} rfl (by decide)).1
  exact h.trans (by rfl)

/-- Total `content_count` carried by the rows of a given theme id
(one row under the primary-key invariant; the sum form needs no
such assumption). -/
def theme_count_sum (themes : List ThemeRow) (tid : Nat) : Nat :=
  ((themes.filter (fun t => decide (t.id = tid))).map (fun t => t.content_count)).sum

/-- Number of rows carrying a given theme id. -/
def rowCount (themes : List ThemeRow) (tid : Nat) : Nat :=
  (themes.filter (fun t => decide (t.id = tid))).length

theorem theme_count_sum_nil (tid : Nat) : theme_count_sum [] tid = 0 := rfl

theorem theme_count_sum_cons (t : ThemeRow) (l : List ThemeRow) (tid : Nat) :
    theme_count_sum (t :: l) tid
      = (if t.id = tid then t.content_count else 0) + theme_count_sum l tid := by
  unfold theme_count_sum
  rw [List.filter_cons]
  by_cases h : t.id = tid
  · simp [h]
  · simp [h]

theorem rowCount_cons (t : ThemeRow) (l : List ThemeRow) (tid : Nat) :
    rowCount (t :: l) tid = (if t.id = tid then 1 else 0) + rowCount l tid := by
  unfold rowCount
  rw [List.filter_cons]
  by_cases h : t.id = tid
  · simp [h]
    omega
  · simp [h]

theorem theme_count_sum_append (l1 l2 : List ThemeRow) (tid : Nat) :
    theme_count_sum (l1 ++ l2) tid = theme_count_sum l1 tid + theme_count_sum l2 tid := by
  unfold theme_count_sum
  rw [List.filter_append, List.map_append, List.sum_append]

/-- The counter update preserves row multiplicities (only
`content_count` changes). -/
theorem rowCount_bump (themes : List ThemeRow) (tid tid2 : Nat) :
    rowCount (bump_theme_count themes tid) tid2 = rowCount themes tid2 := by
  induction themes with
  | nil => rfl
  | cons t l ih =>
      unfold bump_theme_count at ih ⊢
      rw [List.map_cons, rowCount_cons, rowCount_cons, ih]
      by_cases h : t.id = tid
      · rw [if_pos h]
      · rw [if_neg h]

/-- Bumping a different id leaves a theme id's total count unchanged. -/
theorem theme_count_sum_bump_other (themes : List ThemeRow) (tid tid2 : Nat)
    (hne : tid2 ≠ tid) :
    theme_count_sum (bump_theme_count themes tid) tid2 = theme_count_sum themes tid2 := by
  induction themes with
  | nil => rfl
  | cons t l ih =>
      unfold bump_theme_count at ih ⊢
      rw [List.map_cons, theme_count_sum_cons, theme_count_sum_cons, ih]
      by_cases h : t.id = tid
      · rw [if_pos h]
        have h2 : ¬ (t.id = tid2) := by
          rw [h]
          exact fun hc => hne hc.symm
        rw [if_neg h2, if_neg h2]
      · rw [if_neg h]

/-- Bumping an id adds one to each of its rows. -/
theorem theme_count_sum_bump_self (themes : List ThemeRow) (tid : Nat) :
    theme_count_sum (bump_theme_count themes tid) tid
      = theme_count_sum themes tid + rowCount themes tid := by
  induction themes with
  | nil => rfl
  | cons t l ih =>
      unfold bump_theme_count at ih ⊢
      rw [List.map_cons, theme_count_sum_cons, theme_count_sum_cons, rowCount_cons, ih]
      by_cases h : t.id = tid
      · rw [if_pos h]
        simp only [if_pos h]
        omega
      · rw [if_neg h]
        simp only [if_neg h]
        omega

/-- Folding counter updates over a list of ids: each id gains one per
occurrence, scaled by its row multiplicity. -/
theorem theme_count_sum_foldl_bump (tids : List Nat) (themes : List ThemeRow) (tid : Nat) :
    theme_count_sum (tids.foldl bump_theme_count themes) tid
      = theme_count_sum themes tid + tids.count tid * rowCount themes tid := by
  induction tids generalizing themes with
  | nil => simp
  | cons a tids ih =>
      rw [List.foldl_cons, ih, rowCount_bump]
      by_cases h : tid = a
      · subst h
        rw [theme_count_sum_bump_self]
        simp only [List.count_cons, beq_self_eq_true, if_true]
        ring
      · rw [theme_count_sum_bump_other _ _ _ h]
        have hb : (a == tid) = false := by
          simp only [beq_eq_false_iff_ne, ne_eq]
          exact fun hc => h hc.symm
        simp only [List.count_cons, hb, Bool.false_eq_true, if_false]
        ring

/-- A theme id outside the table has no rows. -/
theorem rowCount_eq_zero (themes : List ThemeRow) (tid : Nat)
    (h : tid ∉ themes.map (fun t => t.id)) : rowCount themes tid = 0 := by
  induction themes with
  | nil => rfl
  | cons t l ih =>
      rw [List.map_cons, List.mem_cons] at h
      push_neg at h
      rw [rowCount_cons, if_neg (fun hc => h.1 hc.symm), ih h.2]

/-- Under the primary-key invariant, a present theme id has exactly
one row. -/
theorem rowCount_eq_one (themes : List ThemeRow) (tid : Nat)
    (hnd : (themes.map (fun t => t.id)).Nodup)
    (hmem : tid ∈ themes.map (fun t => t.id)) : rowCount themes tid = 1 := by
  induction themes with
  | nil => simp at hmem
  | cons t l ih =>
      rw [List.map_cons, List.nodup_cons] at hnd
      rw [List.map_cons, List.mem_cons] at hmem
      rw [rowCount_cons]
      rcases hmem with hmem | hmem
      · rw [if_pos hmem.symm]
        rw [rowCount_eq_zero l tid]
        · rw [hmem]
          exact hnd.1
      · have hne : t.id ≠ tid := by
          intro hc
          exact hnd.1 (hc ▸ hmem)
        rw [if_neg hne, ih hnd.2 hmem]

/-- Closed form of the match loop fold: accepted matches append their
ids and associations in order and bump the matched themes. -/
theorem foldl_applyMatch (cid : Nat) (ms : List ThemeMatch) (acc : List Nat) (s : Store) :
    ms.foldl (applyMatch cid) (acc, s)
      = (acc ++ (ms.filter acceptMatch).map matchTid,
         { s with
           themes := ((ms.filter acceptMatch).map matchTid).foldl bump_theme_count s.themes,
           contentThemes := s.contentThemes ++ (ms.filter acceptMatch).map
             (fun m => ⟨cid, matchTid m, m.confidence⟩) }) := by
  induction ms generalizing acc s with
  | nil => simp
  | cons m ms ih =>
      rw [List.foldl_cons, List.filter_cons]
      by_cases hm : acceptMatch m = true
      · rw [if_pos hm]
        have hstep : applyMatch cid (acc, s) m
            = (acc ++ [matchTid m],
               { s with
                 contentThemes := s.contentThemes ++ [⟨cid, matchTid m, m.confidence⟩],
                 themes := bump_theme_count s.themes (matchTid m) }) := by
          unfold applyMatch
          rw [if_pos hm]
        rw [hstep, ih]
        simp [List.append_assoc]
      · rw [if_neg hm]
        have hstep : applyMatch cid (acc, s) m = (acc, s) := by
          unfold applyMatch
          rw [if_neg hm]
        rw [hstep, ih]

/-- C6: with existing themes (and no bootstrap trigger), each returned
match referring to a real nonzero theme id is accepted exactly when
its confidence is at least `CONFIDENCE_LOW = 0.5` (0.5 itself passes);
an accepted match appends a `ThemeAssociation` carrying its confidence
and increments that theme's `content_count` by one, a rejected match
creates nothing; a returned new-theme suggestion creates exactly one
theme, associated at fixed confidence 0.9, precisely when zero matches
were accepted, and is suppressed otherwise. -/
theorem categorize_content_confidence_gating (orc : ThemeOracles) (cid : Nat)
    (summary : SummaryData) (s : Store) (ms : List ThemeMatch)
    (sugg : Option NewThemeSuggestion)
    (hb : bootstrap_phase orc s = s)
    (hne : s.themes.isEmpty = false)
    (hcat : orc.categorize summary (themesPayload s.themes)
        = Except.ok { theme_matches := ms, new_theme_suggestion := sugg })
    (htids : ∀ m ∈ ms, ∃ t, m.theme_id = some t ∧ t ≠ 0
        ∧ t ∈ s.themes.map (fun th => th.id))
    (hnodup : (s.themes.map (fun th => th.id)).Nodup)
    (hfresh : ∀ t ∈ s.themes, t.id < s.nextThemeId) :
    (∀ m ∈ ms, acceptMatch m = decide (CONFIDENCE_LOW ≤ m.confidence))
    ∧ (sugg = none →
        categorize_content orc cid summary s
          = ((ms.filter acceptMatch).map matchTid,
             { s with
               themes := ((ms.filter acceptMatch).map matchTid).foldl bump_theme_count s.themes,
               contentThemes := s.contentThemes ++ (ms.filter acceptMatch).map
                 (fun m => ⟨cid, matchTid m, m.confidence⟩) }))
    ∧ (∀ g, sugg = some g → ms.filter acceptMatch ≠ [] →
        categorize_content orc cid summary s
          = ((ms.filter acceptMatch).map matchTid,
             { s with
               themes := ((ms.filter acceptMatch).map matchTid).foldl bump_theme_count s.themes,
               contentThemes := s.contentThemes ++ (ms.filter acceptMatch).map
                 (fun m => ⟨cid, matchTid m, m.confidence⟩) }))
    ∧ (∀ g, sugg = some g → ms.filter acceptMatch = [] →
        categorize_content orc cid summary s
          = ([s.nextThemeId],
             { s with
               themes := s.themes
                 ++ [ThemeRow.mk s.nextThemeId g.name g.description
                       (orc.pickColor s.nextThemeId) 1],
               contentThemes := s.contentThemes ++ [⟨cid, s.nextThemeId, 0.9⟩],
               nextThemeId := s.nextThemeId + 1 }))
    ∧ (∀ tid ∈ s.themes.map (fun th => th.id),
        theme_count_sum (categorize_content orc cid summary s).2.themes tid
          = theme_count_sum s.themes tid
            + ((ms.filter acceptMatch).map matchTid).count tid) := by
  have hacc : ∀ m ∈ ms, acceptMatch m = decide (CONFIDENCE_LOW ≤ m.confidence) := by
    intro m hm
    obtain ⟨t, ht, htz, _⟩ := htids m hm
    unfold acceptMatch
    rw [ht]
    simp [htz]
  have hB : sugg = none →
      categorize_content orc cid summary s
        = ((ms.filter acceptMatch).map matchTid,
           { s with
             themes := ((ms.filter acceptMatch).map matchTid).foldl bump_theme_count s.themes,
             contentThemes := s.contentThemes ++ (ms.filter acceptMatch).map
               (fun m => ⟨cid, matchTid m, m.confidence⟩) }) := by
    intro hs
    subst hs
    unfold categorize_content
    dsimp only
    rw [hb]
    simp only [hne, Bool.false_eq_true, if_false]
    rw [hcat]
    dsimp only
    rw [foldl_applyMatch]
    simp
  have hC : ∀ g, sugg = some g → ms.filter acceptMatch ≠ [] →
      categorize_content orc cid summary s
        = ((ms.filter acceptMatch).map matchTid,
           { s with
             themes := ((ms.filter acceptMatch).map matchTid).foldl bump_theme_count s.themes,
             contentThemes := s.contentThemes ++ (ms.filter acceptMatch).map
               (fun m => ⟨cid, matchTid m, m.confidence⟩) }) := by
    intro g hs hfe
    subst hs
    unfold categorize_content
    dsimp only
    rw [hb]
    simp only [hne, Bool.false_eq_true, if_false]
    rw [hcat]
    dsimp only
    rw [foldl_applyMatch]
    have hie : (([] : List Nat) ++ (ms.filter acceptMatch).map matchTid).isEmpty = false := by
      rw [List.nil_append]
      cases hq : (ms.filter acceptMatch).map matchTid with
      | nil => exact absurd (List.map_eq_nil_iff.mp hq) hfe
      | cons a l => rfl
    simp only [hie, Bool.false_eq_true, if_false]
    simp
  have hD : ∀ g, sugg = some g → ms.filter acceptMatch = [] →
      categorize_content orc cid summary s
        = ([s.nextThemeId],
           { s with
             themes := s.themes
               ++ [ThemeRow.mk s.nextThemeId g.name g.description
                     (orc.pickColor s.nextThemeId) 1],
             contentThemes := s.contentThemes ++ [⟨cid, s.nextThemeId, 0.9⟩],
             nextThemeId := s.nextThemeId + 1 }) := by
    intro g hs hfe
    subst hs
    unfold categorize_content
    dsimp only
    rw [hb]
    simp only [hne, Bool.false_eq_true, if_false]
    rw [hcat]
    dsimp only
    rw [foldl_applyMatch, hfe]
    simp [create_theme]
  refine ⟨hacc, hB, hC, hD, ?_⟩
  intro tid hmem
  have htlt : tid < s.nextThemeId := by
    obtain ⟨t, htm, hteq⟩ := List.mem_map.mp hmem
    rw [← hteq]
    exact hfresh t htm
  have hrow1 : rowCount s.themes tid = 1 := rowCount_eq_one s.themes tid hnodup hmem
  cases hs : sugg with
  | none =>
      rw [hB hs]
      dsimp only
      rw [theme_count_sum_foldl_bump, hrow1, Nat.mul_one]
  | some g =>
      by_cases hfe : ms.filter acceptMatch = []
      · rw [hD g hs hfe]
        dsimp only
        rw [theme_count_sum_append, hfe]
        have hz : theme_count_sum [ThemeRow.mk s.nextThemeId g.name g.description
            (orc.pickColor s.nextThemeId) 1] tid = 0 := by
          rw [theme_count_sum_cons, theme_count_sum_nil]
          have hneq : ¬ ((ThemeRow.mk s.nextThemeId g.name g.description
              (orc.pickColor s.nextThemeId) 1).id = tid) := by
            dsimp only
            omega
          rw [if_neg hneq]
        rw [hz]
        simp
      · rw [hC g hs hfe]
        dsimp only
        rw [theme_count_sum_foldl_bump, hrow1, Nat.mul_one]

/-- Oracles returning one match at exactly 0.5, one at 0.499, and a
new-theme suggestion. -/
def gateOracles : ThemeOracles :=
  { categorize := fun _ _ => Except.ok
      { theme_matches := [⟨some 1, 0.5⟩, ⟨some 2, 0.499⟩],
        new_theme_suggestion := some ⟨"New", none⟩ },
    bootstrap := fun _ => Except.ok [],
    pickColor := fun _ => "#FF5733" }

/-- A store with two themes and no associations. -/
def twoThemeStore : Store :=
  { themes := [⟨1, "AI", none, "#33FF57", 3⟩, ⟨2, "Bio", none, "#3357FF", 0⟩],
    nextThemeId := 3 }

/-- Witness: the 0.5 match is accepted (association at 0.5, count
3 to 4), the 0.499 match is rejected, and the new-theme suggestion is
suppressed because one match was accepted. -/
theorem categorize_content_confidence_gating_witness :
    categorize_content gateOracles 7 { overview := "o" } twoThemeStore
      = ([1],
         { contents := [], summaries := [],
           themes := [⟨1, "AI", none, "#33FF57", 4⟩, ⟨2, "Bio", none, "#3357FF", 0⟩],
           contentThemes := [⟨7, 1, 0.5⟩],
           nextContentId := 1, nextThemeId := 3 }) := by
  have hm1 : acceptMatch ⟨some 1, 0.5⟩ = true := by
    unfold acceptMatch
    norm_num [CONFIDENCE_LOW]
  have hm2 : acceptMatch ⟨some 2, 0.499⟩ = false := by
    unfold acceptMatch
    norm_num [CONFIDENCE_LOW]
  have hflt : List.filter acceptMatch [(⟨some 1, 0.5⟩ : ThemeMatch), ⟨some 2, 0.499⟩]
      = [⟨some 1, 0.5⟩] := by
    rw [List.filter_cons, List.filter_cons, List.filter_nil, if_pos hm1]
    rw [hm2]
    simp
  have h := categorize_content_confidence_gating gateOracles 7 { overview := "o" }
    twoThemeStore [⟨some 1, 0.5⟩, ⟨some 2, 0.499⟩] (some ⟨"New", none⟩)
    rfl rfl rfl
    (by
      intro m hm
      simp only [List.mem_cons, List.not_mem_nil, or_false] at hm
      rcases hm with rfl | rfl
      · exact ⟨1, rfl, by decide, by decide⟩
      · exact ⟨2, rfl, by decide, by decide⟩)
    (by decide) (by decide)
  have h3 := h.2.2.1 ⟨"New", none⟩ rfl (by
    rw [hflt]
    simp)
  rw [hflt] at h3
  exact h3.trans (by rfl)

/-!
Content pipeline orchestrator
(`app/services/content_processor.py`). Extraction network calls and
`ai_service.generate_summary` are oracles; the extractor routing, the
hash, the theme service and the session are the embedded definitions
above. The try/except of `process_url`/`process_file` is modelled by
threading the session state into the error case, rolling back, and
wrapping the message.
-/

/-- The dict returned by an extractor (`metadata`, an opaque payload
stored as `extraction_metadata` and never read back, is not
modelled). -/
structure Extracted where
  title : String
  author : Option String := none
  publish_date : Option String := none
  content : String
  deriving Repr, DecidableEq

/-- The metadata dict passed to `ai_service.generate_summary`
(`content_processor.py` lines 89-93). -/
structure SumMeta where
  title : String
  author : Option String
  source_type : String
  deriving Repr, DecidableEq

/-- Oracles for the pipeline: SHA-256, the network extraction per
source, and the summarization service call. -/
structure PipelineOracles where
  sha256hex : String → String
  extract : String → Except String Extracted
  summarize : String → SumMeta → Except String SummaryData
  theme : ThemeOracles

/-- The `summary` sub-dict of the result envelope. -/
structure SummaryOut where
  overview : String
  key_insights : List String
  implications : Option String
  deriving Repr, DecidableEq

/-- One entry of the `themes` list of the result envelope. -/
structure ThemeOut where
  theme_id : Nat
  confidence : ℚ
  deriving Repr, DecidableEq

/-- The result envelope of `_get_content_details`. -/
structure Envelope where
  content_id : Nat
  title : String
  author : Option String
  source_type : String
  source_url : Option String
  created_at : Option String
  summary : Option SummaryOut
  themes : List ThemeOut
  deriving Repr, DecidableEq

/-- Embeds `ContentProcessor._get_content_details` (`content_processor.py`
lines 231-283); the error models `scalar_one` raising when the row is
absent. -/
def get_content_details (s : Store) (content_id : Nat) : Except String Envelope :=
  match s.contents.find? (fun c => decide (c.id = content_id)) with
  | none => Except.error "No row was found when one was required"
  | some c =>
      Except.ok
        { content_id := c.id, title := c.title, author := c.author,
          source_type := c.source_type, source_url := c.source_url,
          created_at := c.created_at,
          summary := (s.summaries.find? (fun r => decide (r.content_id = content_id))).map
            (fun r => ⟨r.overview, r.key_insights, r.implications⟩),
          themes := (s.contentThemes.filter (fun ct => decide (ct.content_id = content_id))).map
            (fun ct => ⟨ct.theme_id, ct.confidence⟩) }

/-- Embeds `ContentProcessor.process_url` (`content_processor.py` lines
26-126): route, extract, hash, dedup lookup (`find?` models
`scalar_one_or_none` under the unique-hash constraint), insert + flush
(materializing the id), summarize, insert summary, categorize, commit,
build the envelope; any raised error rolls the session back and is
re-raised wrapped. -/
def process_url (orc : PipelineOracles) (url : String) (db : DB) :
    Except String Envelope × DB :=
  let res : Except (String × DB) (Envelope × DB) :=
    match factory_get_extractor url false with
    | Except.error e => Except.error (e, db)
    | Except.ok _ =>
      match orc.extract url with
      | Except.error e => Except.error (e, db)
      | Except.ok extracted =>
        let content_hash := generate_content_hash orc.sha256hex extracted.content
          (some (url_hash_metadata url extracted.title))
        match db.current.contents.find? (fun c => decide (c.content_hash = content_hash)) with
        | some existing =>
            match get_content_details db.current existing.id with
            | Except.error e => Except.error (e, db)
            | Except.ok env => Except.ok (env, db)
        | none =>
            match factory_get_extractor url false with
            | Except.error e => Except.error (e, db)
            | Except.ok ek =>
              let source_type := extractor_source_type ek
              let cid := db.current.nextContentId
              let cur1 : Store :=
                { db.current with
                  contents := db.current.contents
                    ++ [ContentRow.mk cid source_type (some url) none extracted.title
                          extracted.author extracted.publish_date extracted.content
                          content_hash none],
                  nextContentId := cid + 1 }
              match orc.summarize extracted.content
                  ⟨extracted.title, extracted.author, source_type⟩ with
              | Except.error e => Except.error (e, ⟨db.committed, cur1⟩)
              | Except.ok sd =>
                let cur2 : Store :=
                  { cur1 with
                    summaries := cur1.summaries
                      ++ [SummaryRow.mk cid sd.overview sd.key_insights sd.implications
                            sd.model_version sd.token_count] }
                let p := categorize_content orc.theme cid sd cur2
                let db2 : DB := ⟨p.2, p.2⟩
                match get_content_details db2.current cid with
                | Except.error e => Except.error (e, db2)
                | Except.ok env => Except.ok (env, db2)
  match res with
  | Except.ok (env, db2) => (Except.ok env, db2)
  | Except.error (e, dbAt) => (Except.error ("Failed to process URL: " ++ e), dbAt.rollback)

/-- Embeds `ContentProcessor.process_file` (`content_processor.py` lines
128-229): as `process_url`, but the hash metadata carries the original
filename under the unread `file` key, the row stores `file_path`, and
the wrap prefix differs. -/
def process_file (orc : PipelineOracles) (file_path original_filename : String) (db : DB) :
    Except String Envelope × DB :=
  let res : Except (String × DB) (Envelope × DB) :=
    match factory_get_extractor file_path true with
    | Except.error e => Except.error (e, db)
    | Except.ok _ =>
      match orc.extract file_path with
      | Except.error e => Except.error (e, db)
      | Except.ok extracted =>
        let content_hash := generate_content_hash orc.sha256hex extracted.content
          (some (file_hash_metadata original_filename extracted.title))
        match db.current.contents.find? (fun c => decide (c.content_hash = content_hash)) with
        | some existing =>
            match get_content_details db.current existing.id with
            | Except.error e => Except.error (e, db)
            | Except.ok env => Except.ok (env, db)
        | none =>
            match factory_get_extractor file_path true with
            | Except.error e => Except.error (e, db)
            | Except.ok ek =>
              let source_type := extractor_source_type ek
              let cid := db.current.nextContentId
              let cur1 : Store :=
                { db.current with
                  contents := db.current.contents
                    ++ [ContentRow.mk cid source_type none (some file_path) extracted.title
                          extracted.author extracted.publish_date extracted.content
                          content_hash none],
                  nextContentId := cid + 1 }
              match orc.summarize extracted.content
                  ⟨extracted.title, extracted.author, source_type⟩ with
              | Except.error e => Except.error (e, ⟨db.committed, cur1⟩)
              | Except.ok sd =>
                let cur2 : Store :=
                  { cur1 with
                    summaries := cur1.summaries
                      ++ [SummaryRow.mk cid sd.overview sd.key_insights sd.implications
                            sd.model_version sd.token_count] }
                let p := categorize_content orc.theme cid sd cur2
                let db2 : DB := ⟨p.2, p.2⟩
                match get_content_details db2.current cid with
                | Except.error e => Except.error (e, db2)
                | Except.ok env => Except.ok (env, db2)
  match res with
  | Except.ok (env, db2) => (Except.ok env, db2)
  | Except.error (e, dbAt) => (Except.error ("Failed to process file: " ++ e), dbAt.rollback)

/-- The embedded `_get_content_details` succeeds for the id of any present row and
reports that id back. -/
theorem get_content_details_of_mem (s : Store) (row : ContentRow)
    (hmem : row ∈ s.contents) :
    ∃ env, get_content_details s row.id = Except.ok env ∧ env.content_id = row.id := by
  have hsome : (s.contents.find? (fun c => decide (c.id = row.id))).isSome := by
    rw [List.find?_isSome]
    exact ⟨row, hmem, by simp⟩
  obtain ⟨c2, hc2⟩ := Option.isSome_iff_exists.mp hsome
  have hc2id : c2.id = row.id := by
    have := List.find?_some hc2
    simpa using this
  refine ⟨{ content_id := c2.id, title := c2.title, author := c2.author,
            source_type := c2.source_type, source_url := c2.source_url,
            created_at := c2.created_at,
            summary := (s.summaries.find? (fun r => decide (r.content_id = row.id))).map
              (fun r => ⟨r.overview, r.key_insights, r.implications⟩),
            themes := (s.contentThemes.filter (fun ct => decide (ct.content_id = row.id))).map
              (fun ct => ⟨ct.theme_id, ct.confidence⟩) }, ?_, hc2id⟩
  unfold get_content_details
  rw [hc2]

/-- C2: when the computed content hash matches a persisted row, the
pipeline short-circuits: it returns the envelope built from the
existing row's id (the same `contentId` as the first submission),
leaves the session untouched (no new Content, Summary or
ThemeAssociation rows), and its result does not depend on the
summarization or theme oracles at all — resubmission is idempotent
for both `process_url` and `process_file`. -/
theorem process_dedup_short_circuit :
    (∀ (orc orc2 : PipelineOracles) (url : String) (db : DB) (ex : Extracted)
        (ek : ExtractorKind) (existing : ContentRow),
      orc2.sha256hex = orc.sha256hex →
      orc2.extract = orc.extract →
      factory_get_extractor url false = Except.ok ek →
      orc.extract url = Except.ok ex →
      db.current.contents.find? (fun c => decide (c.content_hash
          = generate_content_hash orc.sha256hex ex.content
              (some (url_hash_metadata url ex.title)))) = some existing →
      ∃ env, get_content_details db.current existing.id = Except.ok env
        ∧ env.content_id = existing.id
        ∧ process_url orc url db = (Except.ok env, db)
        ∧ process_url orc2 url db = process_url orc url db)
    ∧ (∀ (orc orc2 : PipelineOracles) (file_path original_filename : String) (db : DB)
        (ex : Extracted) (ek : ExtractorKind) (existing : ContentRow),
      orc2.sha256hex = orc.sha256hex →
      orc2.extract = orc.extract →
      factory_get_extractor file_path true = Except.ok ek →
      orc.extract file_path = Except.ok ex →
      db.current.contents.find? (fun c => decide (c.content_hash
          = generate_content_hash orc.sha256hex ex.content
              (some (file_hash_metadata original_filename ex.title)))) = some existing →
      ∃ env, get_content_details db.current existing.id = Except.ok env
        ∧ env.content_id = existing.id
        ∧ process_file orc file_path original_filename db = (Except.ok env, db)
        ∧ process_file orc2 file_path original_filename db
            = process_file orc file_path original_filename db) := by
  constructor
  · intro orc orc2 url db ex ek existing hsha hext hroute hx hfind
    have hmem := List.mem_of_find?_eq_some hfind
    obtain ⟨env, henv, hid⟩ := get_content_details_of_mem db.current existing hmem
    have h1 : process_url orc url db = (Except.ok env, db) := by
      unfold process_url
      rw [hroute]
      dsimp only
      rw [hx]
      dsimp only
      rw [hfind]
      dsimp only
      rw [henv]
    have h2 : process_url orc2 url db = (Except.ok env, db) := by
      unfold process_url
      rw [hroute]
      dsimp only
      rw [hext, hx]
      dsimp only
      rw [hsha, hfind]
      dsimp only
      rw [henv]
    exact ⟨env, henv, hid, h1, h2.trans h1.symm⟩
  · intro orc orc2 file_path original_filename db ex ek existing hsha hext hroute hx hfind
    have hmem := List.mem_of_find?_eq_some hfind
    obtain ⟨env, henv, hid⟩ := get_content_details_of_mem db.current existing hmem
    have h1 : process_file orc file_path original_filename db = (Except.ok env, db) := by
      unfold process_file
      rw [hroute]
      dsimp only
      rw [hx]
      dsimp only
      rw [hfind]
      dsimp only
      rw [henv]
    have h2 : process_file orc2 file_path original_filename db = (Except.ok env, db) := by
      unfold process_file
      rw [hroute]
      dsimp only
      rw [hext, hx]
      dsimp only
      rw [hsha, hfind]
      dsimp only
      rw [henv]
    exact ⟨env, henv, hid, h1, h2.trans h1.symm⟩

/-- C3: when no persisted row matches the hash, a new content row is
added, and the summarization call then raises, the pipeline rolls the
session back — on a fresh session the final state equals the initial
one, so no content, summary or association row of this call persists
and no ContentItem is left without its Summary — and re-raises one
wrapped error whose message carries the original cause. Both
`process_url` and `process_file` behave this way. -/
theorem process_rollback_on_failure :
    (∀ (orc : PipelineOracles) (url : String) (db : DB) (ex : Extracted)
        (ek : ExtractorKind) (msg : String),
      factory_get_extractor url false = Except.ok ek →
      orc.extract url = Except.ok ex →
      db.current.contents.find? (fun c => decide (c.content_hash
          = generate_content_hash orc.sha256hex ex.content
              (some (url_hash_metadata url ex.title)))) = none →
      orc.summarize ex.content ⟨ex.title, ex.author, extractor_source_type ek⟩
          = Except.error msg →
      db.current = db.committed →
      process_url orc url db
        = (Except.error ("Failed to process URL: " ++ msg), db))
    ∧ (∀ (orc : PipelineOracles) (file_path original_filename : String) (db : DB)
        (ex : Extracted) (ek : ExtractorKind) (msg : String),
      factory_get_extractor file_path true = Except.ok ek →
      orc.extract file_path = Except.ok ex →
      db.current.contents.find? (fun c => decide (c.content_hash
          = generate_content_hash orc.sha256hex ex.content
              (some (file_hash_metadata original_filename ex.title)))) = none →
      orc.summarize ex.content ⟨ex.title, ex.author, extractor_source_type ek⟩
          = Except.error msg →
      db.current = db.committed →
      process_file orc file_path original_filename db
        = (Except.error ("Failed to process file: " ++ msg), db)) := by
  constructor
  · intro orc url db ex ek msg hroute hx hfind hsum hfresh
    cases db with
    | mk comm cur =>
        dsimp only at hfind hfresh ⊢
        subst hfresh
        unfold process_url
        rw [hroute]
        dsimp only
        rw [hx]
        dsimp only
        rw [hfind]
        dsimp only
        rw [hsum]
        dsimp only
        rfl
  · intro orc file_path original_filename db ex ek msg hroute hx hfind hsum hfresh
    cases db with
    | mk comm cur =>
        dsimp only at hfind hfresh ⊢
        subst hfresh
        unfold process_file
        rw [hroute]
        dsimp only
        rw [hx]
        dsimp only
        rw [hfind]
        dsimp only
        rw [hsum]
        dsimp only
        rfl

/-- Pipeline oracles for concrete runs: identity digest (injectivity
is irrelevant here, only which preimage is fed matters), a fixed
extraction, a failing summarizer, failing theme oracles. -/
def pipeOracles : PipelineOracles :=
  { sha256hex := fun s => s,
    extract := fun _ => Except.ok { title := "T", content := "Body" },
    summarize := fun _ _ => Except.error "nope",
    theme := failingOracles }

/-- The same pipeline oracles with different summarization and theme
oracles, to exhibit that the dedup path consults neither. -/
def pipeOracles2 : PipelineOracles :=
  { pipeOracles with
    summarize := fun _ _ => Except.ok { overview := "alt" },
    theme := gateOracles }

/-- A persisted row whose hash matches resubmission of the same
source. -/
def dedupRow : ContentRow :=
  { id := 1, source_type := "web", source_url := some "https://example.org/a",
    title := "T", raw_content := "Body",
    content_hash := content_hash_input "Body"
      (some (url_hash_metadata "https://example.org/a" "T")) }

/-- A fresh session over a store already holding `dedupRow`. -/
def dedupDB : DB :=
  ⟨{ contents := [dedupRow], nextContentId := 2 },
   { contents := [dedupRow], nextContentId := 2 }⟩

/-- Witness: resubmitting the already-persisted URL returns the
existing id 1, leaves the store untouched, and ignores the
summarization and theme oracles. -/
theorem process_dedup_short_circuit_witness :
    ∃ env, get_content_details dedupDB.current dedupRow.id = Except.ok env
      ∧ env.content_id = dedupRow.id
      ∧ process_url pipeOracles "https://example.org/a" dedupDB = (Except.ok env, dedupDB)
      ∧ process_url pipeOracles2 "https://example.org/a" dedupDB
          = process_url pipeOracles "https://example.org/a" dedupDB :=
  process_dedup_short_circuit.1 pipeOracles pipeOracles2 "https://example.org/a" dedupDB
    { title := "T", content := "Body" } ExtractorKind.web dedupRow
    rfl rfl rfl rfl (by decide)

/-- A fresh empty session. -/
def emptyDB : DB := ⟨{}, {}⟩

/-- Witness: with an empty store and a summarizer that raises `nope`,
both pipelines report the wrapped failure and the session state is
exactly the initial one. -/
theorem process_rollback_on_failure_witness :
    process_url pipeOracles "https://example.org/a" emptyDB
      = (Except.error ("Failed to process URL: " ++ "nope"), emptyDB)
    ∧ process_file pipeOracles "/tmp/up/doc.pdf" "doc.pdf" emptyDB
      = (Except.error ("Failed to process file: " ++ "nope"), emptyDB) :=
  ⟨process_rollback_on_failure.1 pipeOracles "https://example.org/a" emptyDB
      { title := "T", content := "Body" } ExtractorKind.web "nope"
      rfl rfl rfl rfl rfl,
   process_rollback_on_failure.2 pipeOracles "/tmp/up/doc.pdf" "doc.pdf" emptyDB
      { title := "T", content := "Body" } ExtractorKind.pdf "nope"
      rfl rfl rfl rfl rfl⟩
